import Mathlib

/-!
Verification of the product-catalog service (Go sources under src/).

The development shallowly embeds the request handlers, the path dispatcher
and the persistent store of the catalog service.  Go strings are modelled as
lists of characters, SQLite tables as Lean lists, wall-clock time as a
natural number of seconds, and decimal currency amounts as rationals.  The
store methods are translated from the file src/unnamed/part_004 (the revision
the claims cite), the handlers from src/handlers.go, src/handlers_variants.go
and src/handlers_export.go, and the dispatcher from src/server.go.
-/

namespace Catalog

/-- Model of a Go string value: the list of its characters. -/
abbrev GoStr := List Char

/-- Coercion helper turning a Lean string literal into a modelled Go string. -/
def str (s : String) : GoStr := s.data

/-- ASCII lower-casing of one character, as used by the SQLite LIKE operator
and by the ASCII fast path of Go strings.EqualFold. -/
def asciiLower (c : Char) : Char :=
  if 65 ≤ c.toNat ∧ c.toNat ≤ 90 then Char.ofNat (c.toNat + 32) else c

/-- Embeds strings.EqualFold for the ASCII strings this program compares. -/
def equalFold (s t : GoStr) : Bool :=
  s.map asciiLower == t.map asciiLower

/-- Substring occurrence test on character lists. -/
def occursWithin (needle : GoStr) : GoStr → Bool
  | [] => needle.isPrefixOf []
  | c :: rest => needle.isPrefixOf (c :: rest) || occursWithin needle rest

/-- Embeds the SQLite expression `x LIKE '%' || q || '%'`, which is an
ASCII-case-insensitive substring test. -/
def likeContains (haystack needle : GoStr) : Bool :=
  occursWithin (needle.map asciiLower) (haystack.map asciiLower)

/-- Embeds strings.Split with a one-character separator.  Like the Go
function, the result is always a non-empty list. -/
def splitOnChar (c : Char) : GoStr → List GoStr
  | [] => [[]]
  | x :: xs =>
    match splitOnChar c xs with
    | [] => [[]]
    | h :: t => if x = c then [] :: h :: t else (x :: h) :: t

/-- Embeds `strings.Split(s, "/")`. -/
def splitSlash (s : GoStr) : List GoStr := splitOnChar '/' s

/-- Embeds strings.TrimPrefix. -/
def trimPfx (p s : GoStr) : GoStr :=
  if p.isPrefixOf s then s.drop p.length else s

/-- Embeds strings.HasSuffix. -/
def hasSuffix (s suffix : GoStr) : Bool := suffix.isSuffixOf s

/-- Embeds strings.Contains. -/
def containsSub (s sub : GoStr) : Bool := occursWithin sub s

/-- Numeric value of an ASCII digit. -/
def digitVal (c : Char) : Option Nat :=
  if 48 ≤ c.toNat ∧ c.toNat ≤ 57 then some (c.toNat - 48) else none

/-- Digit-string parsing used by atoi. -/
def atoiNat (s : GoStr) : Option Nat :=
  if s = [] then none
  else
    s.foldl
      (fun acc c =>
        match acc, digitVal c with
        | some n, some d => some (n * 10 + d)
        | _, _ => none)
      (some 0)

/-- Embeds strconv.Atoi: an optional sign followed by at least one digit
(machine-word overflow is not modelled). -/
def atoi (s : GoStr) : Option Int :=
  match s with
  | '-' :: rest => (atoiNat rest).map (fun n => -(n : Int))
  | '+' :: rest => (atoiNat rest).map (fun n => (n : Int))
  | _ => (atoiNat s).map (fun n => (n : Int))

/-- Embeds strconv.FormatBool. -/
def formatBool (b : Bool) : GoStr := if b then str "true" else str "false"

/-- Byte-wise comparison of strings, matching the BINARY collation SQLite
uses for ORDER BY on text columns. -/
def goStrLe : GoStr → GoStr → Bool
  | [], _ => true
  | _ :: _, [] => false
  | a :: as, b :: bs =>
    if a.toNat < b.toNat then true
    else if b.toNat < a.toNat then false
    else goStrLe as bs

/-- Insertion of one element into a sorted list. -/
def insertSorted {α : Type} (le : α → α → Bool) (x : α) : List α → List α
  | [] => [x]
  | y :: ys => if le x y then x :: y :: ys else y :: insertSorted le x ys

/-- Stable insertion sort, modelling an SQL ORDER BY clause. -/
def insertionSort {α : Type} (le : α → α → Bool) : List α → List α
  | [] => []
  | x :: xs => insertSorted le x (insertionSort le xs)

/-- Embeds math.Round: round to the nearest integer, halves away from zero.
Decimal request amounts are modelled as exact rationals. -/
def goRound (q : ℚ) : Int :=
  if 0 ≤ q then ⌊q + 1 / 2⌋ else -⌊-q + 1 / 2⌋

/-- Value printed by the format verb %.2f: the argument rounded to two
decimal places.  The textual rendering itself is abstracted away; every
price the program prints is exactly representable with two decimals. -/
def round2 (q : ℚ) : ℚ := (goRound (q * 100) : ℚ) / 100

/-- Embeds the internal row type dbProduct (src/unnamed/part_003).
Timestamps are seconds on a global clock; DeletedAt is NULL or a time. -/
structure DBProduct where
  id : Int
  name : GoStr
  description : GoStr
  priceCents : Int
  category : GoStr
  inStock : Bool
  quantity : Int
  createdAt : Nat
  updatedAt : Nat
  deletedAt : Option Nat
  deriving Repr, DecidableEq

/-- Embeds cachedProduct (src/unnamed/part_004): a snapshot plus its expiry
instant. -/
structure CachedProduct where
  product : DBProduct
  expiresAt : Nat
  deriving Repr, DecidableEq

/-- Embeds the internal row type dbVariant. -/
structure DBVariant where
  id : Int
  productId : Int
  sku : GoStr
  name : GoStr
  priceCents : Int
  quantity : Int
  inStock : Bool
  attributes : GoStr
  sortOrder : Int
  createdAt : Nat
  updatedAt : Nat
  deriving Repr, DecidableEq

/-- State owned by the Store: the products table, the AUTOINCREMENT counter
for it, the in-memory read cache, and the variants table. -/
structure StoreState where
  products : List DBProduct
  nextProductId : Int
  productCache : List (Int × CachedProduct)
  variants : List DBVariant
  deriving Repr, DecidableEq

/-- Distinguishable error outcomes of store methods. -/
inductive StoreErr where
  | notFound
  | validation
  | uniqueViolation
  deriving Repr, DecidableEq

deriving instance DecidableEq for Except

/-- Cache lookup, embedding the map read `s.productCache[id]`. -/
def findCache (c : List (Int × CachedProduct)) (id : Int) : Option CachedProduct :=
  (c.find? (fun e => e.1 == id)).map Prod.snd

/-- Cache write, embedding the map assignment `s.productCache[id] = entry`. -/
def cacheInsert (c : List (Int × CachedProduct)) (id : Int) (e : CachedProduct) :
    List (Int × CachedProduct) :=
  (id, e) :: c.filter (fun x => !(x.1 == id))

/-- Embeds the SQL row lookup `WHERE id = ? AND deleted_at IS NULL`. -/
def findActiveProduct (ps : List DBProduct) (id : Int) : Option DBProduct :=
  ps.find? (fun p => p.id == id && p.deletedAt == none)

/-- Seconds a cache entry stays valid (3 * time.Second in the source). -/
def cacheTTL : Nat := 3

/-- Database branch of Store.GetProduct: query the row excluding
soft-deleted ones, then store a fresh cache entry. -/
def getProductFromDB (st : StoreState) (id : Int) (now : Nat) :
    Except StoreErr DBProduct × StoreState :=
  match findActiveProduct st.products id with
  | none => (Except.error StoreErr.notFound, st)
  | some p =>
    (Except.ok p,
     { st with productCache := cacheInsert st.productCache id ⟨p, now + cacheTTL⟩ })

/-- Embeds Store.GetProduct (src/unnamed/part_004 lines 195-222): consult the
cache first and return the snapshot when it has not expired, otherwise read
the database and refresh the cache. -/
def Store.GetProduct (st : StoreState) (id : Int) (now : Nat) :
    Except StoreErr DBProduct × StoreState :=
  match findCache st.productCache id with
  | some entry =>
    if now < entry.expiresAt then (Except.ok entry.product, st)
    else getProductFromDB st id now
  | none => getProductFromDB st id now

/-- Embeds Store.CreateProduct (src/unnamed/part_004 lines 224-253):
validate name and price, truncate long descriptions, then INSERT, which the
UNIQUE(name) table constraint makes fail whenever any existing row,
soft-deleted or not, carries the same name. -/
def Store.CreateProduct (st : StoreState) (name description : GoStr)
    (priceCents : Int) (category : GoStr) (inStock : Bool) (quantity : Int)
    (now : Nat) : Except StoreErr Int × StoreState :=
  if name = [] then (Except.error StoreErr.validation, st)
  else if priceCents < 0 then (Except.error StoreErr.validation, st)
  else
    let description :=
      if 128 < description.length then description.take 128 else description
    if st.products.any (fun p => p.name == name) then
      (Except.error StoreErr.uniqueViolation, st)
    else
      let id := st.nextProductId
      let p : DBProduct :=
        ⟨id, name, description, priceCents, category, inStock, quantity, now, now, none⟩
      (Except.ok id,
       { st with products := st.products ++ [p], nextProductId := id + 1 })

/-- Embeds Store.UpdateProduct (src/unnamed/part_004 lines 256-276): a
full-row UPDATE guarded by `deleted_at IS NULL`; zero affected rows is
reported as not found, and the UNIQUE(name) constraint rejects a rename onto
another row. -/
def Store.UpdateProduct (st : StoreState) (id : Int) (name description : GoStr)
    (priceCents : Int) (category : GoStr) (inStock : Bool) (quantity : Int)
    (now : Nat) : Except StoreErr Unit × StoreState :=
  match findActiveProduct st.products id with
  | none => (Except.error StoreErr.notFound, st)
  | some _ =>
    if st.products.any (fun p => p.name == name && !(p.id == id)) then
      (Except.error StoreErr.uniqueViolation, st)
    else
      (Except.ok (),
       { st with
           products := st.products.map (fun p =>
             if p.id == id && p.deletedAt == none then
               { p with name := name, description := description,
                        priceCents := priceCents, category := category,
                        inStock := inStock, quantity := quantity,
                        updatedAt := now }
             else p) })

/-- Embeds Store.DeleteProduct: set deleted_at where the row is still
active; zero affected rows is reported as not found. -/
def Store.DeleteProduct (st : StoreState) (id : Int) (now : Nat) :
    Except StoreErr Unit × StoreState :=
  match findActiveProduct st.products id with
  | none => (Except.error StoreErr.notFound, st)
  | some _ =>
    (Except.ok (),
     { st with
         products := st.products.map (fun p =>
           if p.id == id && p.deletedAt == none then
             { p with deletedAt := some now, updatedAt := now }
           else p) })

/-- Embeds Store.DecrementQuantity (src/unnamed/part_004 lines 299-316):
read the current quantity with a query that does not exclude soft-deleted
rows, subtract one without any stock guard, recompute in_stock, write both. -/
def Store.DecrementQuantity (st : StoreState) (id : Int) (now : Nat) :
    Except StoreErr Unit × StoreState :=
  match st.products.find? (fun p => p.id == id) with
  | none => (Except.error StoreErr.notFound, st)
  | some p =>
    let newQty := p.quantity - 1
    let inStock := decide (0 < newQty)
    (Except.ok (),
     { st with
         products := st.products.map (fun q =>
           if q.id == id then
             { q with quantity := newQty, inStock := inStock, updatedAt := now }
           else q) })

/-- Embeds Store.ListProducts (src/unnamed/part_004 lines 164-193): an
optional exact category filter and, notably, no deleted_at filter at all.
The string-interpolated SQL of the source is modelled as an exact match. -/
def Store.ListProducts (st : StoreState) (category : GoStr) : List DBProduct :=
  if category = [] then st.products
  else st.products.filter (fun p => p.category == category)

/-- Embeds Store.SearchProducts (src/unnamed/part_005 lines 149-175): LIKE
over name and description, excluding soft-deleted rows, ordered by name. -/
def Store.SearchProducts (st : StoreState) (q : GoStr) : List DBProduct :=
  insertionSort (fun a b => goStrLe a.name b.name)
    (st.products.filter (fun p =>
      p.deletedAt == none && (likeContains p.name q || likeContains p.description q)))

/-- Embeds Store.GetVariant: a lookup by variant id alone. -/
def Store.GetVariant (st : StoreState) (vid : Int) : Option DBVariant :=
  st.variants.find? (fun v => v.id == vid)

/-- Embeds Store.UpdateVariant: full-row UPDATE keyed only on the variant
id; zero affected rows is reported as not found. -/
def Store.UpdateVariant (st : StoreState) (vid : Int) (sku name : GoStr)
    (priceCents quantity : Int) (inStock : Bool) (attributes : GoStr)
    (sortOrder : Int) (now : Nat) : Except StoreErr Unit × StoreState :=
  match Store.GetVariant st vid with
  | none => (Except.error StoreErr.notFound, st)
  | some _ =>
    if st.variants.any (fun v => v.sku == sku && !(v.id == vid)) then
      (Except.error StoreErr.uniqueViolation, st)
    else
      (Except.ok (),
       { st with
           variants := st.variants.map (fun v =>
             if v.id == vid then
               { v with sku := sku, name := name, priceCents := priceCents,
                        quantity := quantity, inStock := inStock,
                        attributes := attributes, sortOrder := sortOrder,
                        updatedAt := now }
             else v) })

/-- Embeds Store.DeleteVariant: DELETE keyed only on the variant id. -/
def Store.DeleteVariant (st : StoreState) (vid : Int) :
    Except StoreErr Unit × StoreState :=
  match Store.GetVariant st vid with
  | none => (Except.error StoreErr.notFound, st)
  | some _ =>
    (Except.ok (), { st with variants := st.variants.filter (fun v => !(v.id == vid)) })

/-- Embeds Store.DecrementVariantQuantity: the same unguarded
read-then-write as the product version, keyed only on the variant id. -/
def Store.DecrementVariantQuantity (st : StoreState) (vid : Int) (now : Nat) :
    Except StoreErr Unit × StoreState :=
  match st.variants.find? (fun v => v.id == vid) with
  | none => (Except.error StoreErr.notFound, st)
  | some v =>
    let newQty := v.quantity - 1
    let inStock := decide (0 < newQty)
    (Except.ok (),
     { st with
         variants := st.variants.map (fun w =>
           if w.id == vid then
             { w with quantity := newQty, inStock := inStock, updatedAt := now }
           else w) })

/-- Embeds the API-facing Product type (src/unnamed/part_003): prices are
meant to be decimal currency amounts. -/
structure Product where
  id : Int
  name : GoStr
  description : GoStr
  price : ℚ
  category : GoStr
  inStock : Bool
  quantity : Int
  createdAt : Nat
  updatedAt : Nat
  deletedAt : Option Nat
  deriving Repr, DecidableEq

/-- Embeds the API-facing Variant type.  The attributes field keeps the raw
serialized string; the JSON decoding the source performs is a pure function
of that string and does not affect any claim. -/
structure APIVariant where
  id : Int
  productId : Int
  sku : GoStr
  name : GoStr
  price : ℚ
  quantity : Int
  inStock : Bool
  attributes : GoStr
  sortOrder : Int
  createdAt : Nat
  updatedAt : Nat
  deriving Repr, DecidableEq

/-- Embeds CreateProductRequest, the decoded body of POST /products. -/
structure CreateProductRequest where
  name : GoStr
  description : GoStr
  price : ℚ
  category : GoStr
  inStock : Bool
  quantity : Int
  deriving Repr, DecidableEq

/-- Embeds UpdateVariantRequest, the decoded body of PUT on a variant. -/
structure UpdateVariantRequest where
  sku : GoStr
  name : GoStr
  price : ℚ
  quantity : Int
  inStock : Bool
  attributes : GoStr
  sortOrder : Int
  deriving Repr, DecidableEq

/-- Embeds toAPIProduct (src/handlers.go lines 13-26).  The source computes
the API price as float64(p.PriceCents) * 100. -/
def toAPIProduct (p : DBProduct) : Product :=
  { id := p.id, name := p.name, description := p.description,
    price := (p.priceCents : ℚ) * 100,
    category := p.category, inStock := p.inStock, quantity := p.quantity,
    createdAt := p.createdAt, updatedAt := p.updatedAt, deletedAt := p.deletedAt }

/-- Embeds toAPIVariant (src/handlers_variants.go lines 13-32), which
divides the stored cents by 100. -/
def toAPIVariant (v : DBVariant) : APIVariant :=
  { id := v.id, productId := v.productId, sku := v.sku, name := v.name,
    price := (v.priceCents : ℚ) / 100,
    quantity := v.quantity, inStock := v.inStock, attributes := v.attributes,
    sortOrder := v.sortOrder, createdAt := v.createdAt, updatedAt := v.updatedAt }

/-- Outcome written by a handler: the HTTP status plus its body where a
claim inspects one. -/
inductive HResult where
  | okProduct (p : Product)
  | okVariant (v : APIVariant)
  | created (id : Int)
  | purchased
  | noContent
  | badRequest
  | notFound
  | conflict
  | methodNotAllowed
  | serverError
  deriving Repr, DecidableEq

/-- HTTP status code carried by each handler outcome. -/
def HResult.statusCode : HResult → Nat
  | .okProduct _ => 200
  | .okVariant _ => 200
  | .created _ => 201
  | .purchased => 200
  | .noContent => 204
  | .badRequest => 400
  | .notFound => 404
  | .conflict => 409
  | .methodNotAllowed => 405
  | .serverError => 500

/-- Price carried by a 200 product response, when there is one. -/
def HResult.apiPrice : HResult → Option ℚ
  | .okProduct p => some p.price
  | _ => none

/-- Embeds handleCreateProduct (src/handlers.go lines 55-78): reject a
negative price, round the decimal amount to cents, call the store, and, as
the source does, write the 201 response with the returned id even when the
store call failed, because the error branch only logs. -/
def handleCreateProduct (st : StoreState) (req : CreateProductRequest)
    (now : Nat) : HResult × StoreState :=
  if req.price < 0 then (HResult.badRequest, st)
  else
    let priceCents := goRound (req.price * 100)
    match Store.CreateProduct st req.name req.description priceCents
        req.category req.inStock req.quantity now with
    | (Except.ok id, st1) => (HResult.created id, st1)
    | (Except.error _, st1) => (HResult.created 0, st1)

/-- Embeds handleGetProduct (src/handlers.go lines 81-97). -/
def handleGetProduct (st : StoreState) (id : Int) (now : Nat) :
    HResult × StoreState :=
  match Store.GetProduct st id now with
  | (Except.error _, st1) => (HResult.notFound, st1)
  | (Except.ok p, st1) => (HResult.okProduct (toAPIProduct p), st1)

/-- Embeds handlePurchaseProduct (src/handlers.go lines 149-178): the
product id is the first segment after the /products/ prefix; the stock check
reads through Store.GetProduct, hence through the cache. -/
def handlePurchaseProduct (st : StoreState) (urlPath : GoStr) (now : Nat) :
    HResult × StoreState :=
  let pathPart := trimPfx (str "/products/") urlPath
  let idStr := (splitSlash pathPart).headD []
  match atoi idStr with
  | none => (HResult.badRequest, st)
  | some id =>
    match Store.GetProduct st id now with
    | (Except.error _, st1) => (HResult.notFound, st1)
    | (Except.ok product, st1) =>
      if product.quantity ≤ 0 then (HResult.conflict, st1)
      else
        match Store.DecrementQuantity st1 id now with
        | (Except.error _, st2) => (HResult.serverError, st2)
        | (Except.ok _, st2) => (HResult.purchased, st2)

/-- Embeds handleGetVariant (src/handlers_variants.go lines 113-135): the
variant id is the third path segment; the product segment is never read. -/
def handleGetVariant (st : StoreState) (urlPath : GoStr) :
    HResult × StoreState :=
  let pathPart := trimPfx (str "/products/") urlPath
  let parts := splitSlash pathPart
  if parts.length < 3 then (HResult.badRequest, st)
  else
    match atoi (parts.getD 2 []) with
    | none => (HResult.badRequest, st)
    | some vid =>
      match Store.GetVariant st vid with
      | none => (HResult.notFound, st)
      | some v => (HResult.okVariant (toAPIVariant v), st)

/-- Embeds handleUpdateVariant (src/handlers_variants.go lines 138-184). -/
def handleUpdateVariant (st : StoreState) (urlPath : GoStr)
    (req : UpdateVariantRequest) (now : Nat) : HResult × StoreState :=
  let pathPart := trimPfx (str "/products/") urlPath
  let parts := splitSlash pathPart
  if parts.length < 3 then (HResult.badRequest, st)
  else
    match atoi (parts.getD 2 []) with
    | none => (HResult.badRequest, st)
    | some vid =>
      let priceCents := goRound (req.price * 100)
      match Store.UpdateVariant st vid req.sku req.name priceCents
          req.quantity req.inStock req.attributes req.sortOrder now with
      | (Except.error _, st1) => (HResult.serverError, st1)
      | (Except.ok _, st1) =>
        match Store.GetVariant st1 vid with
        | none => (HResult.notFound, st1)
        | some v => (HResult.okVariant (toAPIVariant v), st1)

/-- Embeds handleDeleteVariant (src/handlers_variants.go lines 187-208). -/
def handleDeleteVariant (st : StoreState) (urlPath : GoStr) :
    HResult × StoreState :=
  let pathPart := trimPfx (str "/products/") urlPath
  let parts := splitSlash pathPart
  if parts.length < 3 then (HResult.badRequest, st)
  else
    match atoi (parts.getD 2 []) with
    | none => (HResult.badRequest, st)
    | some vid =>
      match Store.DeleteVariant st vid with
      | (Except.error _, st1) => (HResult.notFound, st1)
      | (Except.ok _, st1) => (HResult.noContent, st1)

/-- Embeds handlePurchaseVariant (src/handlers_variants.go lines 211-244). -/
def handlePurchaseVariant (st : StoreState) (urlPath : GoStr) (now : Nat) :
    HResult × StoreState :=
  let pathPart := trimPfx (str "/products/") urlPath
  let parts := splitSlash pathPart
  if parts.length < 3 then (HResult.badRequest, st)
  else
    match atoi (parts.getD 2 []) with
    | none => (HResult.badRequest, st)
    | some vid =>
      match Store.GetVariant st vid with
      | none => (HResult.notFound, st)
      | some v =>
        if v.quantity ≤ 0 then (HResult.conflict, st)
        else
          match Store.DecrementVariantQuantity st vid now with
          | (Except.error _, st1) => (HResult.serverError, st1)
          | (Except.ok _, st1) => (HResult.purchased, st1)

/-- HTTP methods the dispatcher distinguishes. -/
inductive Method where
  | GET
  | POST
  | PUT
  | DELETE
  deriving Repr, DecidableEq

/-- Handler a request under /products/:id/... is dispatched to. -/
inductive RouteTarget where
  | purchaseProduct
  | reviewsSub
  | listVariants
  | createVariant
  | getVariant
  | updateVariant
  | deleteVariant
  | purchaseVariant
  | inventory
  | details
  | getProductApi
  | getProductPage
  | updateProduct
  | deleteProduct
  | methodNotAllowed
  | notFoundRoute
  deriving Repr, DecidableEq

/-- Embeds routeVariants (src/server.go lines 213-256): first the /purchase
suffix, then the segment count decides between collection and item routes. -/
def dispatchVariants (m : Method) (path : GoStr) : RouteTarget :=
  if hasSuffix path (str "/purchase") then
    if m = Method.POST then RouteTarget.purchaseVariant
    else RouteTarget.methodNotAllowed
  else
    let parts := splitSlash path
    if parts.length = 2 then
      match m with
      | Method.GET => RouteTarget.listVariants
      | Method.POST => RouteTarget.createVariant
      | _ => RouteTarget.methodNotAllowed
    else if 3 ≤ parts.length then
      match m with
      | Method.GET => RouteTarget.getVariant
      | Method.PUT => RouteTarget.updateVariant
      | Method.DELETE => RouteTarget.deleteVariant
      | _ => RouteTarget.methodNotAllowed
    else RouteTarget.notFoundRoute

/-- Embeds the mux handler for /products/ (src/server.go lines 100-163):
the argument is the URL path with the /products/ prefix already trimmed,
and the checks run in source order, the /purchase suffix check first. -/
def dispatchProductsSub (m : Method) (wantsHTML : Bool) (path : GoStr) :
    RouteTarget :=
  if hasSuffix path (str "/purchase") then
    if m = Method.POST then RouteTarget.purchaseProduct
    else RouteTarget.methodNotAllowed
  else if containsSub path (str "/reviews") then RouteTarget.reviewsSub
  else if containsSub path (str "/variants") then dispatchVariants m path
  else if hasSuffix path (str "/inventory") then
    if m = Method.GET then RouteTarget.inventory else RouteTarget.methodNotAllowed
  else if hasSuffix path (str "/details") then
    if m = Method.GET then RouteTarget.details else RouteTarget.methodNotAllowed
  else
    match m with
    | Method.GET =>
      if wantsHTML then RouteTarget.getProductPage else RouteTarget.getProductApi
    | Method.PUT => RouteTarget.updateProduct
    | Method.DELETE => RouteTarget.deleteProduct
    | _ => RouteTarget.methodNotAllowed

/-- One row of the CSV wire format (src/handlers_export.go).  Numeric and
boolean cells are kept as the exact values the textual cells denote; the id
and timestamp columns, which import ignores, are dropped. -/
structure CSVRecord where
  name : GoStr
  description : GoStr
  price : ℚ
  category : GoStr
  inStockStr : GoStr
  quantity : Int
  deriving Repr, DecidableEq

/-- Embeds the per-product record written by handleExportCSV (lines 39-56):
each field comes from toAPIProduct, the price through the %.2f verb and the
stock flag through strconv.FormatBool. -/
def exportRecord (p : DBProduct) : CSVRecord :=
  let api := toAPIProduct p
  { name := api.name, description := api.description,
    price := round2 api.price, category := api.category,
    inStockStr := formatBool api.inStock, quantity := api.quantity }

/-- Embeds handleExportCSV (src/handlers_export.go lines 17-57): list the
products, optionally by category, and emit one record per row. -/
def handleExportCSV (st : StoreState) (category : GoStr) : List CSVRecord :=
  (Store.ListProducts st category).map exportRecord

/-- Embeds the truthiness rule of import: EqualFold "true" or literal "1". -/
def parseInStock (s : GoStr) : Bool :=
  equalFold s (str "true") || s == str "1"

/-- Embeds one loop iteration of handleImportCSV (lines 106-155): skip rows
with an empty name or a failing store insert, otherwise round the price cell
to cents and create the product.  Numeric parse failures cannot arise here
because the record model stores the denoted values, and the TrimSpace calls
are omitted since no exported cell carries surrounding whitespace. -/
def importRow (now : Nat) (acc : StoreState × Nat × Nat) (rec : CSVRecord) :
    StoreState × Nat × Nat :=
  let (st, imported, skipped) := acc
  if rec.name = [] then (st, imported, skipped + 1)
  else
    let priceCents := goRound (rec.price * 100)
    match Store.CreateProduct st rec.name rec.description priceCents
        rec.category (parseInStock rec.inStockStr) rec.quantity now with
    | (Except.ok _, st1) => (st1, imported + 1, skipped)
    | (Except.error _, _) => (st, imported, skipped + 1)

/-- Embeds the body loop of handleImportCSV: fold the rows into the store,
counting imported and skipped ones. -/
def handleImportCSV (st : StoreState) (records : List CSVRecord) (now : Nat) :
    StoreState × Nat × Nat :=
  records.foldl (importRow now) (st, 0, 0)

/-! Concrete fixtures used by the claim theorems. -/

/-- Store state right after table creation, before any insert. -/
def emptyStore : StoreState := ⟨[], 1, [], []⟩

/-- Name cell of the spec scenario product. -/
def penName : GoStr := ['P', 'e', 'n']

/-- Category cell of the spec scenario product. -/
def officeCat : GoStr := ['o', 'f', 'f', 'i', 'c', 'e']

/-- Decoded body of the spec scenario request, which carries price 1.50 and
quantity 2 and leaves in_stock at the Go zero value false. -/
def penRequest : CreateProductRequest :=
  ⟨penName, [], 3 / 2, officeCat, false, 2⟩

/-- Row the spec scenario create stores: 150 cents, quantity 2. -/
def penRow : DBProduct :=
  ⟨1, penName, [], 150, officeCat, false, 2, 0, 0, none⟩

/-- Store holding only the spec scenario product. -/
def storeWithPen : StoreState := ⟨[penRow], 2, [], []⟩

/-- An active row next to a soft-deleted one. -/
def activeRow : DBProduct :=
  ⟨1, penName, [], 150, officeCat, true, 2, 0, 0, none⟩

/-- A soft-deleted row in the same category. -/
def deletedRow : DBProduct :=
  ⟨2, ['G', 'o', 'n', 'e'], [], 100, officeCat, true, 1, 0, 0, some 5⟩

/-- Store holding one active and one soft-deleted product. -/
def storeWithDeleted : StoreState := ⟨[activeRow, deletedRow], 3, [], []⟩

/-- Product row whose stored quantity has reached 0. -/
def soldOutRow : DBProduct :=
  ⟨1, penName, [], 150, officeCat, false, 0, 0, 0, none⟩

/-- Stale cache snapshot of the same product, taken when it still had
quantity 2; the entry expires at instant 10. -/
def staleSnapshot : DBProduct :=
  ⟨1, penName, [], 150, officeCat, true, 2, 0, 0, none⟩

/-- Store whose database row is sold out while the cache still holds the
unexpired quantity-2 snapshot. -/
def staleStore : StoreState := ⟨[soldOutRow], 2, [(1, ⟨staleSnapshot, 10⟩)], []⟩

/-- Store with the sold-out row and no cache entry at all. -/
def soldOutStore : StoreState := ⟨[soldOutRow], 2, [], []⟩

/-- Parent product for the variant routing scenario, quantity 2. -/
def mouseRow : DBProduct :=
  ⟨1, ['M', 'o', 'u', 's', 'e'], [], 2499, ['e', 'l'], true, 2, 0, 0, none⟩

/-- Variant 5 of product 1, quantity 7. -/
def mouseVariant : DBVariant :=
  ⟨5, 1, ['W', 'M'], ['B', 'l', 'k'], 2499, 7, true, [], 1, 0, 0⟩

/-- Store holding the parent product and its variant. -/
def variantStore : StoreState := ⟨[mouseRow], 2, [], [mouseVariant]⟩

/-- Variant 5 of product 1 whose stored quantity has reached 0. -/
def zeroVariant : DBVariant :=
  ⟨5, 1, ['W', 'M'], ['B', 'l', 'k'], 2499, 0, false, [], 1, 0, 0⟩

/-- Store where the parent product has stock but its variant is sold out. -/
def variantZeroStore : StoreState := ⟨[mouseRow], 2, [], [zeroVariant]⟩

/-- Product row used for the export round trip: 150 cents, in stock. -/
def exportRow : DBProduct :=
  ⟨1, penName, ['A'], 150, officeCat, true, 2, 0, 0, none⟩

/-- Store holding only the export scenario product. -/
def exportStore : StoreState := ⟨[exportRow], 2, [], []⟩

/-! Claim theorems. -/

/-- C1.  The claim fails on the code and the code contradicts its own
documentation: toAPIProduct multiplies the stored cents by 100 instead of
dividing, so creating the spec scenario product with price 1.50 stores 150
cents, and the subsequent GET returns price 15000 rather than 1.50. -/
theorem c1_price_read_bug :
    (handleCreateProduct emptyStore penRequest 0).1 = HResult.created 1 ∧
    (handleGetProduct (handleCreateProduct emptyStore penRequest 0).2 1 1).1.apiPrice
      = some 15000 ∧
    penRequest.price = 3 / 2 ∧ (15000 : ℚ) ≠ 3 / 2 := by
  norm_num [handleCreateProduct, handleGetProduct, penRequest, emptyStore,
    penName, officeCat, Store.CreateProduct, Store.GetProduct,
    getProductFromDB, findCache, findActiveProduct, cacheInsert, goRound,
    toAPIProduct, HResult.apiPrice, List.cons_ne_nil, List.find?, cacheTTL]

/-- C2.  The claim fails on the code for exactly one read path: the
ListProducts query carries no deleted_at filter, so a soft-deleted row is
returned by the listing (with and without a category filter), while
SearchProducts and GetProduct do exclude it. -/
theorem c2_list_includes_soft_deleted :
    deletedRow.deletedAt = some 5 ∧
    Store.ListProducts storeWithDeleted [] = [activeRow, deletedRow] ∧
    deletedRow ∈ Store.ListProducts storeWithDeleted officeCat ∧
    Store.SearchProducts storeWithDeleted [] = [activeRow] ∧
    (Store.GetProduct storeWithDeleted 2 7).1 = Except.error StoreErr.notFound := by
  decide

/-- C3.  The store half of the claim holds: the UNIQUE(name) constraint
rejects a duplicate of an active name and of a soft-deleted name, and no row
is inserted.  The HTTP half fails on the code: handleCreateProduct only logs
the store error and still writes 201 with the zero id. -/
theorem c3_duplicate_create_reports_success :
    (Store.CreateProduct storeWithPen penName [] 200 [] true 5 1).1
      = Except.error StoreErr.uniqueViolation ∧
    (Store.CreateProduct storeWithPen penName [] 200 [] true 5 1).2
      = storeWithPen ∧
    (Store.CreateProduct storeWithDeleted (['G', 'o', 'n', 'e'] : GoStr) [] 100 [] true 1 9).1
      = Except.error StoreErr.uniqueViolation ∧
    handleCreateProduct storeWithPen ⟨penName, [], 2, [], true, 5⟩ 1
      = (HResult.created 0, storeWithPen) ∧
    HResult.statusCode (HResult.created 0) = 201 := by
  refine ⟨by decide, by decide, by decide, ?_, by decide⟩
  norm_num [handleCreateProduct, Store.CreateProduct, storeWithPen, penRow,
    penName, goRound, List.cons_ne_nil, HResult.statusCode]

/-- C5.  The claim fails on the code: CreateProduct and UpdateProduct store
the caller-supplied in_stock flag instead of deriving it from the quantity,
so a successful create with quantity 2 and flag false leaves quantity > 0
with in_stock = false, and a successful update with quantity 0 and flag
true leaves quantity = 0 with in_stock = true. -/
theorem c5_in_stock_not_derived :
    (Store.CreateProduct emptyStore penName [] 150 officeCat false 2 0).1
      = Except.ok 1 ∧
    (Store.CreateProduct emptyStore penName [] 150 officeCat false 2 0).2.products.map
        (fun p => (p.quantity, p.inStock)) = [(2, false)] ∧
    (Store.UpdateProduct storeWithPen 1 penName [] 150 officeCat true 0 1).1
      = Except.ok () ∧
    (Store.UpdateProduct storeWithPen 1 penName [] 150 officeCat true 0 1).2.products.map
        (fun p => (p.quantity, p.inStock)) = [(0, true)] := by
  decide

/-- C6.  The claim fails on the code: the dispatcher checks the /purchase
suffix before the /variants segment, so POST on
/products/1/variants/5/purchase is handled by the product purchase handler,
which decrements product 1 and leaves variant 5 untouched; the variant
purchase handler, which would decrement the variant, is never reached. -/
theorem c6_variant_purchase_misrouted :
    dispatchProductsSub Method.POST false
        (str "1/variants/5/purchase") = RouteTarget.purchaseProduct ∧
    dispatchVariants Method.POST
        (str "1/variants/5/purchase") = RouteTarget.purchaseVariant ∧
    (handlePurchaseProduct variantStore
        (str "/products/1/variants/5/purchase") 0).1 = HResult.purchased ∧
    (handlePurchaseProduct variantStore
        (str "/products/1/variants/5/purchase") 0).2.products.map DBProduct.quantity
      = [1] ∧
    (handlePurchaseProduct variantStore
        (str "/products/1/variants/5/purchase") 0).2.variants.map DBVariant.quantity
      = [7] ∧
    (handlePurchaseVariant variantStore
        (str "/products/1/variants/5/purchase") 0).2.variants.map DBVariant.quantity
      = [6] := by
  decide

/-- C4, counterexample, both scopes of the claim.  Product scope: a product
whose stored quantity is 0 is purchased successfully whenever the cache
still holds an unexpired snapshot with a positive quantity, and the
unguarded decrement drives the stored quantity to -1.  Variant scope: the
dispatcher sends the variant purchase path to the product purchase handler,
so a purchase request addressed to a variant with stored quantity 0 answers
200 whenever the parent product has stock, decrementing the product and
never the variant, instead of the claimed 409. -/
theorem c4_counterexample :
    (soldOutRow.quantity = 0 ∧
      (handlePurchaseProduct staleStore (str "/products/1/purchase") 5).1
        = HResult.purchased ∧
      (handlePurchaseProduct staleStore (str "/products/1/purchase") 5).2.products.map
          DBProduct.quantity = [-1]) ∧
    (zeroVariant.quantity = 0 ∧
      dispatchProductsSub Method.POST false (str "1/variants/5/purchase")
        = RouteTarget.purchaseProduct ∧
      (handlePurchaseProduct variantZeroStore
          (str "/products/1/variants/5/purchase") 0).1 = HResult.purchased ∧
      (handlePurchaseProduct variantZeroStore
          (str "/products/1/variants/5/purchase") 0).2.variants.map DBVariant.quantity
        = [0] ∧
      (handlePurchaseProduct variantZeroStore
          (str "/products/1/variants/5/purchase") 0).2.products.map DBProduct.quantity
        = [1]) := by
  decide

/-- C4, amended.  Product scope: when the stock check is served by the
database rather than by an unexpired cache entry, purchasing a product with
stored quantity 0 returns 409 and leaves the products table unchanged.
Variant scope: the quantity-0 conflict guard lives in the variant purchase
handler, which returns 409 and leaves the whole state unchanged, but
dispatch never reaches that handler (see the counterexample).  Concrete
scenario: create with quantity 2 followed by three purchases with the cache
expired before each later call gives two successes and then the conflict,
with the stored quantity resting at 0. -/
theorem c4_purchase_conflict_amended :
    (∀ (st : StoreState) (urlPath : GoStr) (id : Int) (now : Nat) (p : DBProduct),
      atoi ((splitSlash (trimPfx (str "/products/") urlPath)).headD []) = some id →
      (∀ e, findCache st.productCache id = some e → e.expiresAt ≤ now) →
      findActiveProduct st.products id = some p →
      p.quantity = 0 →
      (handlePurchaseProduct st urlPath now).1 = HResult.conflict ∧
      (handlePurchaseProduct st urlPath now).1.statusCode = 409 ∧
      (handlePurchaseProduct st urlPath now).2.products = st.products) ∧
    (∀ (st : StoreState) (urlPath : GoStr) (vid : Int) (now : Nat) (v : DBVariant),
      ¬ (splitSlash (trimPfx (str "/products/") urlPath)).length < 3 →
      atoi ((splitSlash (trimPfx (str "/products/") urlPath)).getD 2 []) = some vid →
      Store.GetVariant st vid = some v →
      v.quantity = 0 →
      (handlePurchaseVariant st urlPath now).1 = HResult.conflict ∧
      (handlePurchaseVariant st urlPath now).1.statusCode = 409 ∧
      (handlePurchaseVariant st urlPath now).2 = st) ∧
    ((handleCreateProduct emptyStore penRequest 0).2 = storeWithPen ∧
      (handlePurchaseProduct storeWithPen (str "/products/1/purchase") 0).1
        = HResult.purchased ∧
      (handlePurchaseProduct
          (handlePurchaseProduct storeWithPen (str "/products/1/purchase") 0).2
          (str "/products/1/purchase") 10).1 = HResult.purchased ∧
      (handlePurchaseProduct
          (handlePurchaseProduct
            (handlePurchaseProduct storeWithPen (str "/products/1/purchase") 0).2
            (str "/products/1/purchase") 10).2
          (str "/products/1/purchase") 20).1 = HResult.conflict ∧
      (handlePurchaseProduct
          (handlePurchaseProduct
            (handlePurchaseProduct storeWithPen (str "/products/1/purchase") 0).2
            (str "/products/1/purchase") 10).2
          (str "/products/1/purchase") 20).2.products.map DBProduct.quantity
        = [0]) := by
  refine ⟨?_, ?_, ?_⟩
  · intro st urlPath id now p hatoi hcache hfind hq
    simp only [handlePurchaseProduct, hatoi]
    unfold Store.GetProduct
    cases hfc : findCache st.productCache id with
    | none =>
      simp [getProductFromDB, hfind, hq, HResult.statusCode]
    | some e =>
      have hle := hcache e hfc
      have hnl : ¬ now < e.expiresAt := by omega
      simp [hnl, getProductFromDB, hfind, hq, HResult.statusCode]
  · intro st urlPath vid now v hlen hvid hgv hq
    simp only [handlePurchaseVariant]
    rw [if_neg hlen, hvid]
    simp [hgv, hq, HResult.statusCode]
  · refine ⟨?_, by decide, by decide, by decide, by decide⟩
    norm_num [handleCreateProduct, penRequest, emptyStore, storeWithPen,
      penRow, penName, officeCat, Store.CreateProduct, goRound,
      List.cons_ne_nil]

/-- C4, witness for the amended theorem: with no cache entry present, the
purchase of the sold-out product returns the 409 conflict and leaves the
table unchanged, and the variant purchase handler applied to the sold-out
variant returns the 409 conflict leaving the state unchanged. -/
theorem c4_witness :
    ((handlePurchaseProduct soldOutStore (str "/products/1/purchase") 0).1
        = HResult.conflict ∧
      (handlePurchaseProduct soldOutStore (str "/products/1/purchase") 0).1.statusCode
        = 409 ∧
      (handlePurchaseProduct soldOutStore (str "/products/1/purchase") 0).2.products
        = soldOutStore.products) ∧
    ((handlePurchaseVariant variantZeroStore
          (str "/products/1/variants/5/purchase") 0).1 = HResult.conflict ∧
      (handlePurchaseVariant variantZeroStore
          (str "/products/1/variants/5/purchase") 0).1.statusCode = 409 ∧
      (handlePurchaseVariant variantZeroStore
          (str "/products/1/variants/5/purchase") 0).2 = variantZeroStore) :=
  ⟨c4_purchase_conflict_amended.1 soldOutStore (str "/products/1/purchase") 1 0
      soldOutRow (by decide)
      (by intro e h; simp [findCache, soldOutStore] at h)
      (by decide) (by decide),
    c4_purchase_conflict_amended.2.1 variantZeroStore
      (str "/products/1/variants/5/purchase") 5 0 zeroVariant
      (by decide) (by decide) (by decide) (by decide)⟩

/-- Record written for the export scenario product: the price cell already
carries the inflated value 15000 produced by toAPIProduct. -/
def exportedRec : CSVRecord :=
  ⟨penName, ['A'], 15000, officeCat, str "true", 2⟩

/-- Row materialized by importing the exported record: rounding the price
cell back to cents multiplies it by 100 once more. -/
def importedRow : DBProduct :=
  ⟨1, penName, ['A'], 1500000, officeCat, true, 2, 0, 0, none⟩

/-- C7.  The claim fails on the code: exporting a 150-cent product writes
the price cell 15000.00 because toAPIProduct multiplies instead of divides,
and importing that cell stores 1500000 cents, so the round trip inflates the
price by a factor of 10000 while name, description, category, in_stock and
quantity do come back unchanged. -/
theorem c7_export_import_price_bug :
    handleExportCSV exportStore [] = [exportedRec] ∧
    handleImportCSV emptyStore [exportedRec] 0 = (⟨[importedRow], 2, [], []⟩, 1, 0) ∧
    exportRow.priceCents = 150 ∧ importedRow.priceCents = 1500000 ∧
    (150 : Int) ≠ 1500000 ∧
    importedRow.name = exportRow.name ∧
    importedRow.description = exportRow.description ∧
    importedRow.category = exportRow.category ∧
    importedRow.inStock = exportRow.inStock ∧
    importedRow.quantity = exportRow.quantity := by
  have hps : parseInStock (str "true") = true := by decide
  have hg : goRound ((15000 : ℚ) * 100) = 1500000 := by norm_num [goRound]
  have hr : round2 ((150 : ℚ) * 100) = 15000 := by norm_num [round2, goRound]
  refine ⟨?_, ?_, by decide, by decide, by decide, by decide, by decide,
    by decide, by decide, by decide⟩
  · simp [handleExportCSV, Store.ListProducts, exportStore, exportRecord,
      toAPIProduct, exportRow, exportedRec, formatBool, hr]
  · simp [handleImportCSV, importRow, exportedRec, hps, hg,
      Store.CreateProduct, emptyStore, List.cons_ne_nil, importedRow,
      List.cons_ne_nil, penName]

/-! Helper lemmas shared by the remaining claim theorems. -/

/-- UpdateProduct never touches the read cache, in any of its branches. -/
theorem updateProduct_preserves_cache (st : StoreState) (id : Int)
    (n d : GoStr) (pc : Int) (c : GoStr) (i : Bool) (q : Int) (t : Nat) :
    (Store.UpdateProduct st id n d pc c i q t).2.productCache = st.productCache := by
  unfold Store.UpdateProduct
  cases findActiveProduct st.products id with
  | none => rfl
  | some _ =>
    dsimp only
    split <;> rfl

/-- Splitting never yields the empty list, as with strings.Split in Go. -/
theorem splitOnChar_ne_nil (c : Char) (s : GoStr) : splitOnChar c s ≠ [] := by
  induction s with
  | nil => simp [splitOnChar]
  | cons x xs ih =>
    simp only [splitOnChar]
    cases h : splitOnChar c xs with
    | nil => simp
    | cons hd tl => by_cases hxc : x = c <;> simp [hxc]

/-- Splitting after a separator-free block peels the block off whole. -/
theorem splitOnChar_append (c : Char) (p rest : GoStr) (hp : c ∉ p) :
    splitOnChar c (p ++ c :: rest) = p :: splitOnChar c rest := by
  induction p with
  | nil =>
    simp only [List.nil_append, splitOnChar]
    cases h : splitOnChar c rest with
    | nil => exact absurd h (splitOnChar_ne_nil c rest)
    | cons hd tl => simp
  | cons x xs ih =>
    have hx : x ≠ c := fun h => hp (h ▸ List.mem_cons_self x xs)
    have hxs : c ∉ xs := fun h => hp (List.mem_cons_of_mem _ h)
    simp only [List.cons_append, splitOnChar, List.append_eq]
    rw [ih hxs]
    simp [hx]

/-- Trimming a true prefix leaves exactly the remainder. -/
theorem trimPfx_append (pre s : GoStr) : trimPfx pre (pre ++ s) = s := by
  unfold trimPfx
  rw [if_pos (List.isPrefixOf_iff_prefix.mpr (List.prefix_append pre s)),
    List.drop_left]

/-- Path segments seen by the variant handlers: for a slash-free product
segment, the split is the product segment, the word variants, and the split
of the trailing part. -/
theorem variantPathParts (p v : GoStr) (hp : '/' ∉ p) :
    splitSlash (trimPfx (str "/products/")
        (str "/products/" ++ (p ++ (str "/variants/" ++ v))))
      = p :: str "variants" :: splitSlash v := by
  rw [trimPfx_append]
  have hshape : p ++ (str "/variants/" ++ v)
      = p ++ '/' :: (str "variants" ++ '/' :: v) := by
    have : str "/variants/" = '/' :: (str "variants" ++ ['/']) := by decide
    simp [this]
  rw [hshape]
  unfold splitSlash
  rw [splitOnChar_append '/' p _ hp,
    splitOnChar_append '/' (str "variants") v (by decide)]

/-- C8.  The claim holds: while an unexpired cache entry for the id exists,
GetProduct returns exactly that snapshot and leaves the state untouched, so
an UpdateProduct performed in that window is not observed; once the entry
has expired (or none exists), GetProduct reads the active database row and
installs a fresh entry expiring cacheTTL seconds later. -/
theorem c8_cache_semantics (st : StoreState) (id : Int) (now : Nat) :
    (∀ e, findCache st.productCache id = some e → now < e.expiresAt →
      Store.GetProduct st id now = (Except.ok e.product, st) ∧
      (∀ (n d : GoStr) (pc : Int) (c : GoStr) (i : Bool) (q : Int) (t : Nat),
        Store.GetProduct (Store.UpdateProduct st id n d pc c i q t).2 id now
          = (Except.ok e.product, (Store.UpdateProduct st id n d pc c i q t).2))) ∧
    ((∀ e, findCache st.productCache id = some e → e.expiresAt ≤ now) →
      ∀ p, findActiveProduct st.products id = some p →
        Store.GetProduct st id now =
          (Except.ok p,
           { st with productCache := cacheInsert st.productCache id ⟨p, now + cacheTTL⟩ })) := by
  constructor
  · intro e hfc hlt
    constructor
    · simp [Store.GetProduct, hfc, hlt]
    · intro n d pc c i q t
      have hcp := updateProduct_preserves_cache st id n d pc c i q t
      simp [Store.GetProduct, hcp, hfc, hlt]
  · intro hexp p hfind
    unfold Store.GetProduct
    cases hfc : findCache st.productCache id with
    | none => simp [getProductFromDB, hfind]
    | some e =>
      have hle := hexp e hfc
      have hnl : ¬ now < e.expiresAt := by omega
      simp [hnl, getProductFromDB, hfind]

/-- C8, witness: at instant 5 the unexpired quantity-2 snapshot is returned
as is, even though the database row is already sold out. -/
theorem c8_witness :
    Store.GetProduct staleStore 1 5 = (Except.ok staleSnapshot, staleStore) :=
  ((c8_cache_semantics staleStore 1 5).1 ⟨staleSnapshot, 10⟩
    (by decide) (by decide)).1

/-- C9.  The claim holds: the GET, PUT and DELETE variant handlers read only
the third path segment, so two requests differing solely in the product
segment of the path, the addressed product existing or not, produce
identical outcomes and states. -/
theorem c9_variant_ops_ignore_product_id
    (st : StoreState) (p1 p2 v : GoStr) (req : UpdateVariantRequest)
    (now : Nat) (hp1 : '/' ∉ p1) (hp2 : '/' ∉ p2) :
    handleGetVariant st (str "/products/" ++ (p1 ++ (str "/variants/" ++ v)))
      = handleGetVariant st (str "/products/" ++ (p2 ++ (str "/variants/" ++ v))) ∧
    handleUpdateVariant st (str "/products/" ++ (p1 ++ (str "/variants/" ++ v))) req now
      = handleUpdateVariant st (str "/products/" ++ (p2 ++ (str "/variants/" ++ v))) req now ∧
    handleDeleteVariant st (str "/products/" ++ (p1 ++ (str "/variants/" ++ v)))
      = handleDeleteVariant st (str "/products/" ++ (p2 ++ (str "/variants/" ++ v))) := by
  refine ⟨?_, ?_, ?_⟩ <;>
    simp only [handleGetVariant, handleUpdateVariant, handleDeleteVariant,
      variantPathParts p1 v hp1, variantPathParts p2 v hp2,
      List.length_cons, List.getD_cons_succ]

/-- Body used by the C9 witness update request. -/
def c9Req : UpdateVariantRequest := ⟨['W', 'M'], ['B', 'l', 'k'], 0, 3, true, [], 1⟩

/-- C9, witness: addressing variant 5 through product 1 and through the
nonexistent product 999 gives identical results for all three methods. -/
theorem c9_witness :
    (handleGetVariant variantStore
        (str "/products/" ++ (str "1" ++ (str "/variants/" ++ str "5")))
      = handleGetVariant variantStore
        (str "/products/" ++ (str "999" ++ (str "/variants/" ++ str "5")))) ∧
    (handleUpdateVariant variantStore
        (str "/products/" ++ (str "1" ++ (str "/variants/" ++ str "5"))) c9Req 0
      = handleUpdateVariant variantStore
        (str "/products/" ++ (str "999" ++ (str "/variants/" ++ str "5"))) c9Req 0) ∧
    (handleDeleteVariant variantStore
        (str "/products/" ++ (str "1" ++ (str "/variants/" ++ str "5")))
      = handleDeleteVariant variantStore
        (str "/products/" ++ (str "999" ++ (str "/variants/" ++ str "5")))) :=
  c9_variant_ops_ignore_product_id variantStore (str "1") (str "999") (str "5")
    c9Req 0 (by decide) (by decide)

/-- C10.  The claim holds: an otherwise valid create with a description
longer than 128 characters succeeds and stores only the first 128
characters, while shorter descriptions are stored unchanged.  Go slices the
byte representation; on the character lists of this model the two coincide. -/
theorem c10_description_truncation
    (st : StoreState) (name desc : GoStr) (priceCents : Int) (cat : GoStr)
    (inS : Bool) (qty : Int) (now : Nat)
    (hname : name ≠ [])
    (hprice : 0 ≤ priceCents)
    (hfresh : st.products.any (fun p => p.name == name) = false) :
    Store.CreateProduct st name desc priceCents cat inS qty now =
      (Except.ok st.nextProductId,
       { st with
           products := st.products ++
             [⟨st.nextProductId, name,
               if 128 < desc.length then desc.take 128 else desc,
               priceCents, cat, inS, qty, now, now, none⟩],
           nextProductId := st.nextProductId + 1 }) := by
  have hnp : ¬ priceCents < 0 := by omega
  unfold Store.CreateProduct
  simp [hname, hnp, hfresh]

/-- Description of 200 characters used by the C10 witness. -/
def longDesc : GoStr := List.replicate 200 'x'

/-- C10, witness: creating a product with a 200-character description in the
empty store succeeds and stores the 128-character truncation. -/
theorem c10_witness :
    Store.CreateProduct emptyStore ['A'] longDesc 100 [] true 1 0 =
      (Except.ok emptyStore.nextProductId,
       { emptyStore with
           products := emptyStore.products ++
             [⟨emptyStore.nextProductId, ['A'],
               if 128 < longDesc.length then longDesc.take 128 else longDesc,
               100, [], true, 1, 0, 0, none⟩],
           nextProductId := emptyStore.nextProductId + 1 }) :=
  c10_description_truncation emptyStore ['A'] longDesc 100 [] true 1 0
    (by decide) (by decide) (by decide)

end Catalog
